import Mathlib

/-
Verification of the scoped-resource (context-manager) examples, the array-sum
exercises and the inheritance demo of the repository, against its specification.

The embedding models Python execution as state passing over an event trace:
a computation takes the trace so far and returns the extended trace together
with either a value or a raised exception. Side effects performed before an
exception was raised stay in the trace, as they do in Python.
-/

namespace PyBasic

/-- Exceptions raised by the embedded programs. `protocolError` appears in the
specification taxonomy; the source never defines or raises it. -/
inductive PyExc where
  | zeroDivisionError (msg : String)
  | attributeError (msg : String)
  | nameError (msg : String)
  | osError (msg : String)
  | protocolError (msg : String)
  deriving DecidableEq, Repr

/-- Observable events of an execution: print statements, a close call on the
wrapped thing of example 5, and generic acquire or release markers used for
the labelled resources of the nesting argument. -/
inductive Event where
  | printed (s : String)
  | closeCalled
  | acquired (i : Nat)
  | released (i : Nat)
  deriving DecidableEq, Repr

abbrev Trace := List Event

/-- Computations over a trace that may raise a Python exception.
The trace survives a raised exception. -/
def PyM (α : Type) : Type := Trace → Trace × Except PyExc α

/-- Return a value, trace unchanged. -/
def pureM {α : Type} (a : α) : PyM α := fun t => (t, Except.ok a)

/-- Raise an exception, trace unchanged. -/
def raiseM {α : Type} (e : PyExc) : PyM α := fun t => (t, Except.error e)

/-- Sequence two computations; an exception aborts the continuation. -/
def bindM {α β : Type} (m : PyM α) (f : α → PyM β) : PyM β := fun t =>
  match m t with
  | (t2, Except.ok a) => f a t2
  | (t2, Except.error e) => (t2, Except.error e)

/-- Record an observable event. -/
def logM (e : Event) : PyM Unit := fun t => (t ++ [e], Except.ok ())

/-- A block whose only behaviour is its outcome: it finishes normally or
raises, performing no observable action of its own. -/
def outcomeBody (r : Except PyExc Unit) : PyM Unit := fun t => (t, r)

/-- Semantics of the with statement as the source uses it:
run `enter`; if it raises, propagate without touching `exit`; otherwise run
the body with the entered value; on normal completion call `exit none`; on a
body exception `e` call `exit (some e)` and re-raise `e` unless `exit`
returned true; an exception from `exit` itself propagates. -/
def withStmt {α β : Type} (enter : PyM α) (exit : Option PyExc → PyM Bool)
    (body : α → PyM β) : PyM (Option β) := fun t =>
  match enter t with
  | (t1, Except.error e) => (t1, Except.error e)
  | (t1, Except.ok v) =>
    match body v t1 with
    | (t2, Except.ok b) =>
      match exit none t2 with
      | (t3, Except.error e2) => (t3, Except.error e2)
      | (t3, Except.ok _) => (t3, Except.ok (some b))
    | (t2, Except.error e) =>
      match exit (some e) t2 with
      | (t3, Except.error e2) => (t3, Except.error e2)
      | (t3, Except.ok suppressed) =>
        if suppressed then (t3, Except.ok none) else (t3, Except.error e)

/-- Labelled generic resource, acquisition half: records the acquisition and
returns the label as handle. -/
def enterL (i : Nat) : PyM Nat := bindM (logM (Event.acquired i)) fun _ => pureM i

/-- Labelled generic resource, release half: records the release and reports
suppression flag `b`. -/
def exitL (i : Nat) (b : Bool) (_exc : Option PyExc) : PyM Bool :=
  bindM (logM (Event.released i)) fun _ => pureM b

/-- Integer division as Python 2 performs it on ints: floor division, raising
ZeroDivisionError on a zero divisor. -/
def pyDiv (a b : Int) : PyM Int :=
  if b = 0 then raiseM (PyExc.zeroDivisionError "integer division or modulo by zero")
  else pureM (Int.fdiv a b)

/-- Rectangle of example 2, with the field spelling of the source. -/
structure Rectangle where
  width : Int
  heigth : Int
  deriving DecidableEq, Repr

namespace Rectangle

/-- Rectangle entry hook: prints and returns self. -/
def enter (r : Rectangle) : PyM Rectangle :=
  bindM (logM (Event.printed "in __enter__")) fun _ => pureM r

/-- Rectangle teardown hook: prints and returns None, a non-true value. -/
def exitM (_r : Rectangle) (_exc : Option PyExc) : PyM Bool :=
  bindM (logM (Event.printed "__exit__")) fun _ => pureM false

/-- The method dividing the width by zero, which raises ZeroDivisionError. -/
def device_by_zero (r : Rectangle) : PyM Int := pyDiv r.width 0

end Rectangle

/-- The run of example 2: with Rectangle(3, 4) as rectangle, call
rectangle.device_by_zero(). -/
def rectangleRun : PyM (Option Int) :=
  withStmt (Rectangle.enter (Rectangle.mk 3 4))
    (Rectangle.exitM (Rectangle.mk 3 4))
    (fun rect => rect.device_by_zero)

namespace Context

/-- Context entry hook of example 4: prints and returns self. -/
def enter : PyM Unit :=
  bindM (logM (Event.printed "__enter__()")) fun _ => pureM ()

/-- Context teardown hook of example 4: prints and returns None. -/
def exitM (_exc : Option PyExc) : PyM Bool :=
  bindM (logM (Event.printed "__exit__()")) fun _ => pureM false

end Context

/-- Entry half of the closing generator of example 5: nothing precedes the
yield, so entry just hands the wrapped thing out. -/
def closingEnter {α : Type} (thing : α) : PyM α := pureM thing

/-- Teardown half of the closing generator of example 5: resuming the
generator runs the finally clause, which closes the thing; a block exception
thrown into the generator propagates again after the finally clause, so no
exception is ever suppressed. -/
def closingExit (exc : Option PyExc) : PyM Bool :=
  match exc with
  | none => bindM (logM Event.closeCalled) fun _ => pureM false
  | some e => bindM (logM Event.closeCalled) fun _ => raiseM e

/-- File object handle, tracking only whether it has been closed. -/
structure FileObj where
  closed : Bool
  deriving DecidableEq, Repr

/-- Closing a Python file object: idempotent, closing an already closed file
is a no-op that succeeds. -/
def fileObjClose (_f : FileObj) : FileObj × Except PyExc Unit :=
  (FileObj.mk true, Except.ok ())

/-- Teardown hook of the File class of example 6: closes the file object. -/
def fileClassExit (f : FileObj) : FileObj × Except PyExc Unit := fileObjClose f

/-- Entry phase of the file_open generator of example 8, parametrised by the
result of open(path, w). When open raises OSError the except clause prints,
then the finally clause prints and evaluates f_obj.cose() with f_obj never
bound, raising a NameError; a non-OSError from open skips the except clause
but the same finally clause raises the same NameError, replacing it. Either
way the generator never reaches its yield and entry itself raises. -/
def file_openEnter (openRes : Except PyExc FileObj) : PyM FileObj :=
  match openRes with
  | Except.ok f => pureM f
  | Except.error (PyExc.osError _) =>
    bindM (logM (Event.printed "We had an error!")) fun _ =>
    bindM (logM (Event.printed "closing the file")) fun _ =>
    raiseM (PyExc.nameError "f_obj")
  | Except.error _ =>
    bindM (logM (Event.printed "closing the file")) fun _ =>
    raiseM (PyExc.nameError "f_obj")

/-- Teardown phase of the file_open generator of example 8: the generator is
resumed at its yield, with the block exception thrown in when there is one.
An OSError is caught and reported; in every path the finally clause prints and
then calls f_obj.cose(), a method file objects do not have, so teardown always
raises an AttributeError. -/
def file_openExit (exc : Option PyExc) : PyM Bool :=
  match exc with
  | some (PyExc.osError _) =>
    bindM (logM (Event.printed "We had an error!")) fun _ =>
    bindM (logM (Event.printed "closing the file")) fun _ =>
    raiseM (PyExc.attributeError "cose")
  | _ =>
    bindM (logM (Event.printed "closing the file")) fun _ =>
    raiseM (PyExc.attributeError "cose")

/-- Nested with blocks in the shape of example 3: outer resource 1 is entered,
then inner resource 2 inside its block; the inner block finishes with
outcome `r`; neither resource suppresses. -/
def nestedRun (r : Except PyExc Unit) : PyM (Option (Option Unit)) :=
  withStmt (enterL 1) (exitL 1 false) fun _ =>
    withStmt (enterL 2) (exitL 2 false) fun _ => outcomeBody r

/-- Python sum over a list of ints: a left fold from 0, in exact
arbitrary-precision integer arithmetic. -/
def pySum (arr : List Int) : Int := arr.foldl (fun a x => a + x) 0

/-- The array-sum program of basics.py: it reads a size line and a line of
integers and prints sum(arr); the size is read but not used to truncate. -/
def simpleArraySum (_n : Nat) (arr : List Int) : Int := pySum arr

/-- Method identities of inheritance.py. -/
inductive MethodId where
  | parentInit
  | parentMethod
  | setAttrMethod
  | getAttrMethod
  | childInit
  | childMethod
  deriving DecidableEq, Repr

/-- Class dictionary of Parent. -/
def parentDict : List (String × MethodId) :=
  [("__init__", MethodId.parentInit), ("parent_method", MethodId.parentMethod),
   ("set_attr", MethodId.setAttrMethod), ("get_attr", MethodId.getAttrMethod)]

/-- Class dictionary of Child: an own constructor and child_method only. -/
def childDict : List (String × MethodId) :=
  [("__init__", MethodId.childInit), ("child_method", MethodId.childMethod)]

/-- The two classes of inheritance.py. -/
inductive ClsName where
  | parentCls
  | childCls
  deriving DecidableEq, Repr

/-- Single-inheritance method resolution: an attribute of a Child instance is
looked up in the Child dictionary first, then in the Parent dictionary. -/
def resolveMethod (c : ClsName) (name : String) : Option MethodId :=
  match c with
  | ClsName.parentCls => parentDict.lookup name
  | ClsName.childCls => (childDict.lookup name).orElse fun _ => parentDict.lookup name

/-- Body of Parent.__init__, with the message spelling of the source. -/
def parentInitBody : PyM Unit := logM (Event.printed "Calling patent conrtuctor")

/-- Body of Child.__init__. -/
def childInitBody : PyM Unit := logM (Event.printed "Calling child contructor")

/-- Constructing an instance of class `c` runs the resolved __init__. -/
def runInit (c : ClsName) : PyM Unit :=
  match resolveMethod c "__init__" with
  | some MethodId.parentInit => parentInitBody
  | some MethodId.childInit => childInitBody
  | _ => raiseM (PyExc.attributeError "__init__")

/-- Parent.set_attr assigns to the class attribute Parent.parent_attr: the new
class-attribute value is the argument, whichever instance made the call. -/
def Parent.set_attr (attr : Int) (_s : Int) : Int := attr

/-- Parent.get_attr reads the class attribute Parent.parent_attr directly. -/
def Parent.get_attr (s : Int) : Int := s

/-- Initial value of the class attribute Parent.parent_attr. -/
def parent_attr_init : Int := 100

/-- Recogniser for a ProtocolError result. -/
def isProtocolError {α : Type} : Except PyExc α → Bool
  | Except.error (PyExc.protocolError _) => true
  | _ => false

/-- Second call of the Rectangle entry hook on one instance, made right after
a first call on that same instance. -/
def rectDoubleEnter : Trace × Except PyExc Rectangle :=
  Rectangle.enter (Rectangle.mk 3 4) (Rectangle.enter (Rectangle.mk 3 4) []).1

/-- Second call of the Context teardown hook, made right after a first one. -/
def contextDoubleExit : Trace × Except PyExc Bool :=
  Context.exitM none (Context.exitM none []).1

/-- Second call of the File teardown hook on the same file object. -/
def fileDoubleClose : FileObj × Except PyExc Unit :=
  fileClassExit (fileClassExit (FileObj.mk false)).1

/-- C1: once entry has succeeded, the teardown hook runs exactly once, after
the block, whether the block finishes normally or raises: for any labelled
resource the trace is exactly acquire then release around the block; the
closing generator closes the wrapped thing exactly once; the Rectangle run
prints its teardown message exactly once. -/
theorem claim1_release_exactly_once :
    (∀ (i : Nat) (b : Bool) (r : Except PyExc Unit) (t : Trace),
      (withStmt (enterL i) (exitL i b) (fun _ => outcomeBody r) t).1
        = t ++ [Event.acquired i, Event.released i])
    ∧ (∀ (h : FileObj) (r : Except PyExc Unit),
      ((withStmt (closingEnter h) closingExit (fun _ => outcomeBody r)) []).1.count
        Event.closeCalled = 1)
    ∧ (∀ (r : Except PyExc Unit),
      ((withStmt (Rectangle.enter (Rectangle.mk 3 4)) (Rectangle.exitM (Rectangle.mk 3 4))
        (fun _ => outcomeBody r)) []).1.count (Event.printed "__exit__") = 1)
    ∧ (rectangleRun []).1.count (Event.printed "__exit__") = 1 := by
  refine ⟨?_, ?_, ?_, rfl⟩
  · intro i b r t
    cases r <;> cases b <;>
      simp [withStmt, enterL, exitL, bindM, logM, pureM, outcomeBody]
  · intro h r
    cases r <;> rfl
  · intro r
    cases r <;> rfl

/-- C2: if the teardown hook returns true for a failing block the caller sees
no failure, and if it returns false the caller sees the original failure with
identical kind and message; in particular the Rectangle run, whose block
raises ZeroDivisionError and whose teardown returns None, hands the caller
the ZeroDivisionError with its original message. -/
theorem claim2_suppression :
    (∀ (i : Nat) (b : Bool) (e : PyExc) (t : Trace),
      (withStmt (enterL i) (exitL i b) (fun _ => outcomeBody (Except.error e)) t).2
        = if b then Except.ok none else Except.error e)
    ∧ (rectangleRun []).2
        = Except.error (PyExc.zeroDivisionError "integer division or modulo by zero") := by
  constructor
  · intro i b e t
    cases b <;> simp [withStmt, enterL, exitL, bindM, logM, pureM, outcomeBody]
  · rfl

/-- C3: for nested resources, outer resource 1 and inner resource 2, the
acquisition order is 1 then 2 and the release order is 2 then 1, the inner
release preceding everything that follows in the enclosing block, whatever
the outcome of the inner block. -/
theorem claim3_nesting_lifo (r : Except PyExc Unit) :
    (nestedRun r []).1
      = [Event.acquired 1, Event.acquired 2, Event.released 2, Event.released 1] := by
  cases r <;> rfl

/-- C4 counterexample: calling the Rectangle entry hook a second time on the
same instance succeeds and returns the handle again; it does not fail with
ProtocolError, so a second acquire on an instance does not fail. -/
theorem claim4_counterexample :
    rectDoubleEnter.2 = Except.ok (Rectangle.mk 3 4)
      ∧ isProtocolError rectDoubleEnter.2 = false := by
  exact ⟨rfl, rfl⟩

/-- C4 amended: the entry hooks keep no per-instance state, so a second
acquire on the same instance succeeds, repeats the setup effect and returns
the handle again; no ProtocolError exists in the program. -/
theorem claim4_amended (r : Rectangle) (t : Trace) :
    Rectangle.enter r t = (t ++ [Event.printed "in __enter__"], Except.ok r)
      ∧ (Rectangle.enter r (Rectangle.enter r t).1).2 = Except.ok r
      ∧ (Context.enter (Context.enter t).1).2 = Except.ok () := by
  exact ⟨rfl, rfl, rfl⟩

/-- C5 counterexample: calling the teardown hook a second time on the same
instance succeeds rather than failing with ProtocolError: the Context hook
prints again and returns None, and the File hook closes an already closed
file object, which is a no-op that succeeds. -/
theorem claim5_counterexample :
    contextDoubleExit.2 = Except.ok false
      ∧ isProtocolError contextDoubleExit.2 = false
      ∧ fileDoubleClose.2 = Except.ok ()
      ∧ fileDoubleClose.1.closed = true := by
  exact ⟨rfl, rfl, rfl, rfl⟩

/-- C5 amended: release is idempotent in effect rather than guarded: a second
call of the teardown hook on the same instance succeeds, the File hook
closing the already closed file as a no-op and the Context hook printing
again; no ProtocolError is raised. -/
theorem claim5_amended (f : FileObj) (t : Trace) :
    (fileClassExit f).2 = Except.ok ()
      ∧ (fileClassExit (fileClassExit f).1).2 = Except.ok ()
      ∧ (Context.exitM none (Context.exitM none t).1).2 = Except.ok false := by
  exact ⟨rfl, rfl, rfl⟩

/-- C6: when open fails, the file_open producer fails before its yield, so
acquisition itself raises the failure its first phase ends with, and the
teardown phase is never invoked: the run of the with statement equals the
failing entry alone, for every teardown function and every body. -/
theorem claim6_prefail_no_release (e : PyExc) (ex : Option PyExc → PyM Bool)
    (bd : FileObj → PyM Unit) (t : Trace) :
    (file_openEnter (Except.error e) t).2 = Except.error (PyExc.nameError "f_obj")
      ∧ withStmt (file_openEnter (Except.error e)) ex bd t
          = ((file_openEnter (Except.error e) t).1,
             Except.error (PyExc.nameError "f_obj")) := by
  constructor
  · cases e <;> rfl
  · cases e <;> rfl

/-- C7: for a well-formed input of a size between 1 and 10 followed by that
many integers between 0 and ten to the tenth, the program prints exactly the
mathematical sum of the integers, in exact integer arithmetic. -/
theorem claim7_exact_sum (n : Nat) (arr : List Int)
    (h1 : 1 ≤ n) (h2 : n ≤ 10) (hlen : arr.length = n)
    (hbound : ∀ x ∈ arr, 0 ≤ x ∧ x ≤ 10 ^ 10) :
    simpleArraySum n arr = arr.sum := by
  unfold simpleArraySum pySum
  exact (List.sum_eq_foldl).symm

/-- C7 witness: the sample input of the second exercise satisfies the
constraints, the program prints its exact sum 5000000015, and that sum
exceeds the largest 32-bit integer, so exactness is not vacuous. -/
theorem claim7_exact_sum_witness :
    (1 ≤ 5 ∧ 5 ≤ 10
      ∧ ([1000000001, 1000000002, 1000000003, 1000000004, 1000000005] : List Int).length = 5
      ∧ ∀ x ∈ ([1000000001, 1000000002, 1000000003, 1000000004, 1000000005] : List Int),
          0 ≤ x ∧ x ≤ 10 ^ 10)
    ∧ simpleArraySum 5 [1000000001, 1000000002, 1000000003, 1000000004, 1000000005]
        = ([1000000001, 1000000002, 1000000003, 1000000004, 1000000005] : List Int).sum
    ∧ ([1000000001, 1000000002, 1000000003, 1000000004, 1000000005] : List Int).sum
        = 5000000015
    ∧ (2 ^ 31 - 1 : Int) < 5000000015 := by
  refine ⟨⟨by decide, by decide, by decide, by decide⟩, ?_, by decide, by decide⟩
  exact claim7_exact_sum 5 [1000000001, 1000000002, 1000000003, 1000000004, 1000000005]
    (by decide) (by decide) (by decide) (by decide)

/-- C8: set_attr resolves, on Parent and on Child instances alike, to the one
Parent method, which assigns the argument to the single class attribute; a
later get_attr, resolved from any instance of either class, reads that class
attribute and reports the assigned value. -/
theorem claim8_shared_class_attr (v s : Int) (c c2 : ClsName) :
    resolveMethod c "set_attr" = some MethodId.setAttrMethod
      ∧ resolveMethod c2 "get_attr" = some MethodId.getAttrMethod
      ∧ Parent.get_attr (Parent.set_attr v s) = v := by
  refine ⟨?_, ?_, rfl⟩
  · cases c <;> rfl
  · cases c2 <;> rfl

/-- C9: whenever the file_open resource is torn down, normally or with any
injected block failure, the finally clause calls f_obj.cose(), which file
objects do not have, so release always raises an AttributeError; the caller
of a run whose block finished with any outcome sees that AttributeError. -/
theorem claim9_release_always_fails (exc : Option PyExc) (t : Trace)
    (r : Except PyExc Unit) (f : FileObj) :
    (file_openExit exc t).2 = Except.error (PyExc.attributeError "cose")
      ∧ (withStmt (file_openEnter (Except.ok f)) file_openExit
          (fun _ => outcomeBody r) []).2
          = Except.error (PyExc.attributeError "cose") := by
  constructor
  · cases exc with
    | none => rfl
    | some e => cases e <;> rfl
  · cases r with
    | ok u => rfl
    | error e => cases e <;> rfl

/-- C10: Child defines its own __init__, so constructing a Child resolves to
and runs only the Child constructor: the construction trace is exactly the
child message and the Parent constructor message never appears. -/
theorem claim10_child_init_only :
    resolveMethod ClsName.childCls "__init__" = some MethodId.childInit
      ∧ (runInit ClsName.childCls []).1 = [Event.printed "Calling child contructor"]
      ∧ Event.printed "Calling patent conrtuctor" ∉ (runInit ClsName.childCls []).1 := by
  refine ⟨rfl, rfl, by decide⟩

end PyBasic
